import Mathlib

/-!
Verification of the CMIS CDB (Command Data Block) firmware-update helper
`sonic_platform_base/sonic_xcvr/api/public/cmisCDB.py` of
canonical/sonic-platform-common.

Byte strings are modelled as `List Nat` whose entries are byte values.
Device interaction is modelled explicitly: register reads become oracle
functions `Nat → Nat` (the value returned by the i-th read), and raw paged
writes become lists of `WriteEvent` records, in program order.
-/

namespace CmisCDB

/-! Module-level constants, as in the source. -/

def LPLPAGE : Nat := 0x9f

def CDB_RPL_OFFSET : Nat := 136

def CDB_WRITE_MSG_START : Nat := 130

def PAGE_LENGTH : Nat := 128

def INIT_OFFSET : Nat := 128

def CMDLEN : Nat := 2

def MAX_TRY : Nat := 3

/-- One raw paged write `write_flexible(offset, length, data)` issued to the
device memory, recorded with the arguments the source passes. -/
structure WriteEvent where
  offset : Nat
  length : Nat
  data : List Nat
deriving DecidableEq, Repr

/-- Checksum of a CDB command, from `cdb_chkcode`: the source accumulates
`checksum += byte` over the frame and returns `0xff - (checksum & 0xff)`;
for nonnegative integers `& 0xff` is `% 256`. -/
def cdb_chkcode (cmd : List Nat) : Nat :=
  0xff - (cmd.sum % 256)

/-- The fixed query-status frame of `cmd0000h` before the checksum byte is
stamped: `b"\x00\x00\x00\x00\x02\x00\x00\x00\x00\x10"`. -/
def cmd0000h_base : List Nat :=
  [0x00, 0x00, 0x00, 0x00, 0x02, 0x00, 0x00, 0x00, 0x00, 0x10]

/-- The query-status frame after `cmd[133-INIT_OFFSET] = self.cdb_chkcode(cmd)`
stamps the checksum into slot 5. -/
def cmd0000h_frame : List Nat :=
  cmd0000h_base.set 5 (cdb_chkcode cmd0000h_base)

/-- Helper: replacing a zero entry of a list adds the new value to the sum. -/
theorem sum_set_of_getD_zero (v : Nat) :
    ∀ (l : List Nat) (i : Nat), i < l.length → l.getD i 0 = 0 →
      (l.set i v).sum = l.sum + v := by
  intro l
  induction l with
  | nil => intro i hi _; simp at hi
  | cons a l ih =>
    intro i hi h0
    cases i with
    | zero =>
      have ha : a = 0 := by simpa using h0
      simp [List.set, List.sum_cons, ha, Nat.add_comm]
    | succ j =>
      simp only [List.length_cons, Nat.succ_lt_succ_iff] at hi
      simp only [List.getD_cons_succ] at h0
      simp [List.set, List.sum_cons, ih j hi h0, Nat.add_assoc, Nat.add_comm v]

/-- C1 (counterexample): the claim that a frame stamped with `cdb_chkcode`
sums to 0 mod 256 fails already on the query-status frame of `cmd0000h`:
its stamped sum is 255 mod 256, not 0. -/
theorem cmd0000h_frame_sum_not_zero :
    ¬ (cmd0000h_frame.sum % 256 = 0) := by
  decide

/-- C1 (amended): for every frame whose checksum slot holds zero, stamping
the slot with the value computed by `cdb_chkcode` over the frame yields a
frame whose byte sum is 0xFF mod 256 (ones-complement convention), not 0. -/
theorem checksum_invariant (f : List Nat) (i : Nat)
    (hi : i < f.length) (h0 : f.getD i 0 = 0) :
    (f.set i (cdb_chkcode f)).sum % 256 = 0xff := by
  rw [sum_set_of_getD_zero (cdb_chkcode f) f i hi h0]
  unfold cdb_chkcode
  omega

/-- Witness for C1 (amended), at the concrete query-status frame. -/
theorem checksum_invariant_witness :
    cmd0000h_base.getD 5 0 = 0 ∧
      (cmd0000h_base.set 5 (cdb_chkcode cmd0000h_base)).sum % 256 = 0xff :=
  ⟨by decide, checksum_invariant cmd0000h_base 5 (by decide) (by decide)⟩

/-! ## Status poller: `cdb1_chkstatus` -/

/-- Bit 7 of a CDB status byte, `bool((status >> 7) & 0x1)` in the source. -/
def is_busy_bit (status : Nat) : Bool :=
  (status >>> 7) % 2 = 1

/-- The while loop of `cdb1_chkstatus`, given explicit fuel. The source reads
the status register once before the loop and then recomputes
`is_busy = bool((status >> 7) & 0x1)` from that SAME local variable inside the
loop body, so the loop variable never changes; `none` means the fuel ran out
with the loop still spinning. -/
def cdb1_chkstatus_loop (status : Nat) : Nat → Option Nat
  | 0 => none
  | fuel + 1 =>
    if is_busy_bit status then cdb1_chkstatus_loop status fuel
    else some status

/-- Model of `cdb1_chkstatus`: `reads i` is the value the device would return
for the i-th read of the CDB1 status register. The source performs exactly one
read (`reads 0`) and then enters the busy-wait loop on that value. -/
def cdb1_chkstatus (reads : Nat → Nat) (fuel : Nat) : Option Nat :=
  cdb1_chkstatus_loop (reads 0) fuel

/-- A device read sequence whose first status read is busy (0x80) and whose
every later read is idle (0x00, busy bit clear). -/
def busyThenIdle : Nat → Nat :=
  fun i => if i = 0 then 0x80 else 0x00

/-- C2 (code bug exhibit): whenever the first status read has the busy bit
set, `cdb1_chkstatus` never terminates, for any amount of fuel — the loop
re-tests the stale first read instead of reading the register again, so later
reads (such as `busyThenIdle 1 = 0`, busy clear) are never consulted. -/
theorem cdb1_chkstatus_stuck_on_first_busy (reads : Nat → Nat) (fuel : Nat)
    (h : is_busy_bit (reads 0) = true) :
    cdb1_chkstatus reads fuel = none := by
  unfold cdb1_chkstatus
  induction fuel with
  | zero => rfl
  | succ n ih => simpa [cdb1_chkstatus_loop, h] using ih

/-- Witness for C2: the concrete busy-then-idle read sequence contains a read
with busy clear, yet the poll loop returns no status even with fuel 5. -/
theorem cdb1_chkstatus_stuck_witness :
    is_busy_bit (busyThenIdle 1) = false ∧
      cdb1_chkstatus busyThenIdle 5 = none :=
  ⟨by decide, cdb1_chkstatus_stuck_on_first_busy busyThenIdle 5 (by decide)⟩

/-! ## Channel adapter: `write_cdb` -/

/-- Model of `write_cdb(cmd)`: the two `write_flexible` calls of the source,
in program order. The first writes the payload `cmd[CMDLEN:]` to
`LPLPAGE*PAGE_LENGTH + CDB_WRITE_MSG_START`; the second writes the 2-byte
opcode `cmd[:CMDLEN]` to `LPLPAGE*PAGE_LENGTH + INIT_OFFSET`. -/
def write_cdb (cmd : List Nat) : List WriteEvent :=
  [⟨LPLPAGE * PAGE_LENGTH + CDB_WRITE_MSG_START, cmd.length - CMDLEN, cmd.drop CMDLEN⟩,
   ⟨LPLPAGE * PAGE_LENGTH + INIT_OFFSET, CMDLEN, cmd.take CMDLEN⟩]

/-- C3: for every frame of length at least 2, `write_cdb` issues exactly two
writes; the write at position 0 carries the payload `cmd[2:]` to page 0x9f
offset 130, and the write at position 1 carries the opcode `cmd[:2]` to page
0x9f offset 128 — so the payload write strictly precedes the opcode write and
the opcode write never precedes the payload write. -/
theorem write_cdb_payload_before_opcode (cmd : List Nat)
    (_h : 2 ≤ cmd.length) :
    (write_cdb cmd).length = 2 ∧
      (write_cdb cmd).get? 0 =
        some ⟨0x9f * 128 + 130, cmd.length - 2, cmd.drop 2⟩ ∧
      (write_cdb cmd).get? 1 =
        some ⟨0x9f * 128 + 128, 2, cmd.take 2⟩ := by
  refine ⟨rfl, ?_, rfl⟩
  simp [write_cdb, LPLPAGE, PAGE_LENGTH, CDB_WRITE_MSG_START, CMDLEN]

/-- Witness for C3, at the stamped query-status frame (length 10). -/
theorem write_cdb_order_witness :
    2 ≤ cmd0000h_frame.length ∧
      (write_cdb cmd0000h_frame).get? 1 =
        some ⟨0x9f * 128 + 128, 2, cmd0000h_frame.take 2⟩ :=
  ⟨by decide, (write_cdb_payload_before_opcode cmd0000h_frame (by decide)).2.2⟩

/-! ## Shared retry envelope

Every `cmdXXXXh` method runs the same loop:

    for attemp in range(MAX_TRY):
        self.write_cdb(cmd)
        time.sleep(2)
        status = self.cdb1_chkstatus()
        if (status != 0x1): print(...); continue
        else: break

`statuses i` is the status value polled on the i-th attempt (0-based). The
model returns the pair (number of attempts performed, final value of the
local variable `status`). -/

/-- The retry loop with attempt counter `i` and `rem` iterations remaining.
On each iteration the status of attempt `i` is polled; the loop ends either
by `break` (status equals 0x1) or by the range being exhausted (`rem = 0`
after this iteration); in both cases the last polled status is retained. -/
def cdb_retry_go (statuses : Nat → Nat) : Nat → Nat → Nat × Nat
  | i, 0 => (i, 0)
  | i, rem + 1 =>
    let s := statuses i
    if s = 1 ∨ rem = 0 then (i + 1, s)
    else cdb_retry_go statuses (i + 1) rem

/-- The full retry envelope: up to `MAX_TRY` attempts starting at attempt 0. -/
def cdb_retry (statuses : Nat → Nat) : Nat × Nat :=
  cdb_retry_go statuses 0 MAX_TRY

/-- Helper characterisation of the 3-attempt loop: it stops at the first
attempt whose polled status is exactly 1, and otherwise runs all 3 attempts
and keeps the status of the last one. -/
theorem cdb_retry_eq (statuses : Nat → Nat) :
    cdb_retry statuses =
      if statuses 0 = 1 then (1, statuses 0)
      else if statuses 1 = 1 then (2, statuses 1)
      else (3, statuses 2) := by
  by_cases h0 : statuses 0 = 1 <;> by_cases h1 : statuses 1 = 1 <;>
    simp [cdb_retry, cdb_retry_go, MAX_TRY, h0, h1]

/-- Helper: at least one attempt is always performed. -/
theorem cdb_retry_attempts_pos (statuses : Nat → Nat) :
    1 ≤ (cdb_retry statuses).1 := by
  rw [cdb_retry_eq]
  by_cases h0 : statuses 0 = 1 <;> by_cases h1 : statuses 1 = 1 <;>
    simp [h0, h1]

/-- C10: the retry loop of every command treats exactly the literal status
value 0x01 as success: an early stop at attempt `i` happens only when
`statuses i = 1`; any other polled value — 0x03 included — leaves the loop
running; and when no poll ever returns 1, all 3 attempts run and the final
status is the last polled (non-1) value. -/
theorem cdb_retry_success_only_0x01 (statuses : Nat → Nat) :
    ((cdb_retry statuses).1 < MAX_TRY →
        statuses ((cdb_retry statuses).1 - 1) = 1) ∧
      (∀ i, i + 1 < MAX_TRY → i < (cdb_retry statuses).1 → statuses i ≠ 1 →
        i + 1 < (cdb_retry statuses).1) ∧
      ((∀ i, i < MAX_TRY → statuses i ≠ 1) →
        (cdb_retry statuses).1 = MAX_TRY ∧
          (cdb_retry statuses).2 = statuses (MAX_TRY - 1) ∧
          (cdb_retry statuses).2 ≠ 1) := by
  rw [cdb_retry_eq]
  by_cases h0 : statuses 0 = 1
  · refine ⟨fun _ => by simp [h0], ?_, ?_⟩
    · intro i hi hrun hne
      have hcases : i = 0 ∨ i = 1 := by simp only [MAX_TRY] at hi; omega
      rcases hcases with rfl | rfl
      · exact absurd h0 hne
      · simp [h0] at hrun
    · intro hall
      exact absurd h0 (hall 0 (by norm_num [MAX_TRY]))
  · by_cases h1 : statuses 1 = 1
    · refine ⟨fun _ => by simp [h0, h1], ?_, ?_⟩
      · intro i hi hrun hne
        have hcases : i = 0 ∨ i = 1 := by simp only [MAX_TRY] at hi; omega
        rcases hcases with rfl | rfl
        · simp [h0, h1]
        · exact absurd h1 hne
      · intro hall
        exact absurd h1 (hall 1 (by norm_num [MAX_TRY]))
    · refine ⟨?_, ?_, ?_⟩
      · intro hlt
        simp [h0, h1, MAX_TRY] at hlt
      · intro i hi hrun hne
        have hcases : i = 0 ∨ i = 1 := by simp only [MAX_TRY] at hi; omega
        rcases hcases with rfl | rfl <;> simp [h0, h1, MAX_TRY]
      · intro hall
        refine ⟨by simp [h0, h1, MAX_TRY], by simp [h0, h1, MAX_TRY], ?_⟩
        simpa [h0, h1, MAX_TRY] using hall 2 (by norm_num [MAX_TRY])

/-- Witness for C10: with every poll returning the CMIS success-class code
0x03, the loop still consumes every attempt past the first and ends on a
status different from 1. -/
theorem cdb_retry_success_only_0x01_witness :
    0 + 1 < (cdb_retry (fun _ => 0x03)).1 ∧
      (cdb_retry (fun _ => 0x03)).1 = MAX_TRY ∧
      (cdb_retry (fun _ => 0x03)).2 ≠ 1 := by
  have h := cdb_retry_success_only_0x01 (fun _ => 0x03)
  exact ⟨h.2.1 0 (by decide) (by decide) (by decide),
    (h.2.2 (fun i _ => by decide)).1,
    (h.2.2 (fun i _ => by decide)).2.2⟩

/-! ## Fault checking: `cdb1_chkflags` -/

/-- Outcome of a call to `cdb1_chkflags`: either one of its two `assert`
statements raised (the hardware-fault failure path), or it returned a Bool
telling whether the CDB command is still incomplete. -/
inductive ChkflagsResult where
  | assertionError : ChkflagsResult
  | ok : Bool → ChkflagsResult
deriving DecidableEq, Repr

/-- Model of `cdb1_chkflags` applied to the byte read from
`MODULE_FIRMWARE_FAULT_INFO`: it extracts bit 2 (datapath firmware fault),
bit 1 (module firmware fault) and bit 6 (CDB1 command complete), asserts
both fault bits are clear — raising `AssertionError` otherwise — and then
returns `False` when the command is complete, `True` when not. -/
def cdb1_chkflags (status : Nat) : ChkflagsResult :=
  let datapath_firmware_fault := (status >>> 2) % 2 = 1
  let module_firmware_fault := (status >>> 1) % 2 = 1
  let cdb1_command_complete := (status >>> 6) % 2 = 1
  if datapath_firmware_fault then .assertionError
  else if module_firmware_fault then .assertionError
  else if cdb1_command_complete then .ok false
  else .ok true

/-- C5: for every fault-flags byte, if the datapath-firmware-fault bit
(bit 2) or the module-firmware-fault bit (bit 1) is set, `cdb1_chkflags`
fails with its assertion (the hardware-fault outcome), whatever bit 6 holds;
and when both fault bits are clear it does not fail. -/
theorem cdb1_chkflags_fault_precedence (status : Nat) :
    (((status >>> 2) % 2 = 1 ∨ (status >>> 1) % 2 = 1) →
        cdb1_chkflags status = .assertionError) ∧
      ((status >>> 2) % 2 = 0 ∧ (status >>> 1) % 2 = 0 →
        cdb1_chkflags status ≠ .assertionError) := by
  constructor
  · rintro (h | h) <;> simp [cdb1_chkflags, h]
  · rintro ⟨h2, h1⟩
    simp only [cdb1_chkflags]
    rw [if_neg (by omega), if_neg (by omega)]
    by_cases h6 : (status >>> 6) % 2 = 1 <;> simp [h6]

/-- Witness for C5: status byte 0x44 has the command-complete bit 6 set and
the datapath-fault bit 2 set — the assertion still fires; status byte 0x40
has only bit 6 set — no assertion. -/
theorem cdb1_chkflags_fault_precedence_witness :
    cdb1_chkflags 0x44 = .assertionError ∧
      cdb1_chkflags 0x40 ≠ .assertionError :=
  ⟨(cdb1_chkflags_fault_precedence 0x44).1 (Or.inl (by decide)),
   (cdb1_chkflags_fault_precedence 0x40).2 (by decide)⟩

/-! ## `cmd0000h`: query status, and the retry-exhaustion return value -/

/-- Model of `cmd0000h`: it stamps its fixed frame, runs the shared retry
envelope over the polled statuses, and ends with `return self.read_cdb()`.
The reply triple that `read_cdb` would produce (reply length, reply check
code, reply bytes) is supplied by the device oracle `read_cdb_result`. The
result records the loop trace (attempts used, final status) together with
the value the method returns to its caller. -/
def cmd0000h (statuses : Nat → Nat) (read_cdb_result : Nat × Nat × List Nat) :
    (Nat × Nat) × (Nat × Nat × List Nat) :=
  (cdb_retry statuses, read_cdb_result)

/-- C4 (code bug exhibit): when every poll of `cmd0000h` returns the failure
status 0x40, exactly 3 attempts are consumed and the final status is not the
success value 1 — yet the value returned to the caller is byte-for-byte the
value returned when the very first poll succeeds: the failure is
indistinguishable from success, there is no explicit failure result. -/
theorem cmd0000h_retry_exhausted_indistinguishable :
    (cmd0000h (fun _ => 0x40) (4, 7, [2, 3])).1.1 = 3 ∧
      (cmd0000h (fun _ => 0x40) (4, 7, [2, 3])).1.2 ≠ 1 ∧
      (cmd0000h (fun _ => 0x40) (4, 7, [2, 3])).2 =
        (cmd0000h (fun _ => 0x01) (4, 7, [2, 3])).2 := by
  decide

/-! ## `cmd0101h`: start firmware download -/

/-- The command frame built by `cmd0101h(startLPLsize, header, imagesize)`:
a 16-byte base `b"\x01\x01" + 14 zero bytes`, whose byte 132-INIT_OFFSET = 4
receives `startLPLsize + 8`, bytes 136..139-INIT_OFFSET = 8..11 receive the
image size in big-endian order (each masked with 0xff), then the vendor
header is appended and the checksum is stamped into slot 133-INIT_OFFSET = 5
over the whole frame. -/
def cmd0101h_frame (startLPLsize : Nat) (header : List Nat)
    (imagesize : Nat) : List Nat :=
  let cmd : List Nat :=
    [0x01, 0x01, 0, 0, 0, 0, 0, 0, 0, 0, 0, 0, 0, 0, 0, 0]
  let cmd := cmd.set 4 (startLPLsize + 8)
  let cmd := cmd.set 8 ((imagesize >>> 24) % 256)
  let cmd := cmd.set 9 ((imagesize >>> 16) % 256)
  let cmd := cmd.set 10 ((imagesize >>> 8) % 256)
  let cmd := cmd.set 11 ((imagesize >>> 0) % 256)
  let cmd := cmd ++ header
  cmd.set 5 (cdb_chkcode cmd)

/-- C7: the start-download frame declares the LPL size `startLPLsize + 8` at
offset 132 (so 16 when the inline header size is 8), and carries the image
size as four big-endian bytes at offsets 136-139. Values of `startLPLsize`
with `startLPLsize + 8 > 255` are outside the domain: there the bytearray
assignment in the source raises `ValueError` and no frame is built. -/
theorem cmd0101h_frame_fields (startLPLsize : Nat) (header : List Nat)
    (imagesize : Nat) (_hs : startLPLsize + 8 ≤ 255)
    (hm : imagesize < 2 ^ 32) :
    (cmd0101h_frame startLPLsize header imagesize).get? 4 =
        some (startLPLsize + 8) ∧
      ∃ b0 b1 b2 b3,
        (cmd0101h_frame startLPLsize header imagesize).get? 8 = some b0 ∧
        (cmd0101h_frame startLPLsize header imagesize).get? 9 = some b1 ∧
        (cmd0101h_frame startLPLsize header imagesize).get? 10 = some b2 ∧
        (cmd0101h_frame startLPLsize header imagesize).get? 11 = some b3 ∧
        b0 < 256 ∧ b1 < 256 ∧ b2 < 256 ∧ b3 < 256 ∧
        ((b0 * 256 + b1) * 256 + b2) * 256 + b3 = imagesize := by
  refine ⟨rfl, (imagesize >>> 24) % 256, (imagesize >>> 16) % 256,
    (imagesize >>> 8) % 256, (imagesize >>> 0) % 256,
    rfl, rfl, rfl, rfl, ?_, ?_, ?_, ?_, ?_⟩
  · exact Nat.mod_lt _ (by norm_num)
  · exact Nat.mod_lt _ (by norm_num)
  · exact Nat.mod_lt _ (by norm_num)
  · exact Nat.mod_lt _ (by norm_num)
  · simp only [Nat.shiftRight_eq_div_pow]
    omega

/-- Witness for C7, at the scenario of the spec: inline header size 8 and
image size 4096; the declared LPL size field is 16. -/
theorem cmd0101h_frame_fields_witness :
    (cmd0101h_frame 8 (List.replicate 8 0x11) 4096).get? 4 = some 16 :=
  (cmd0101h_frame_fields 8 (List.replicate 8 0x11) 4096
    (by decide) (by decide)).1

/-! ## `cmd0103h`: firmware download with inline (LPL) payload -/

/-- The command frame built by `cmd0103h(addr, data)`: a 12-byte base
`b"\x01\x03" + 10 zero bytes`; byte 4 receives `(len(data) + 4) & 0xff`,
bytes 8..11 receive the target address big-endian (masked with 0xff), the
payload is right-padded with zeros to 116 bytes by `ljust` — which leaves
longer payloads unchanged — and appended, and the checksum is stamped into
slot 5 over the whole frame. -/
def cmd0103h_frame (addr : Nat) (data : List Nat) : List Nat :=
  let lpl_len := data.length + 4
  let cmd : List Nat := [0x01, 0x03, 0, 0, 0, 0, 0, 0, 0, 0, 0, 0]
  let cmd := cmd.set 4 (lpl_len % 256)
  let cmd := cmd.set 8 ((addr >>> 24) % 256)
  let cmd := cmd.set 9 ((addr >>> 16) % 256)
  let cmd := cmd.set 10 ((addr >>> 8) % 256)
  let cmd := cmd.set 11 ((addr >>> 0) % 256)
  let paddedPayload := data ++ List.replicate (116 - data.length) 0
  let cmd := cmd ++ paddedPayload
  cmd.set 5 (cdb_chkcode cmd)

/-- All device writes issued by `cmd0103h`: one `write_cdb` of the frame per
attempt of the shared retry envelope. The method performs no validation of
the payload length before building and writing the frame. -/
def cmd0103h_writes (addr : Nat) (data : List Nat)
    (statuses : Nat → Nat) : List WriteEvent :=
  List.flatten (List.replicate (cdb_retry statuses).1
    (write_cdb (cmd0103h_frame addr data)))

/-- Helper: `write_cdb` always issues its two writes. -/
theorem write_cdb_ne_nil (cmd : List Nat) : write_cdb cmd ≠ [] := by
  simp [write_cdb]

/-- C8: for every payload of at most 116 bytes and every 32-bit address, the
LPL download frame declares LPL length `len(data) + 4` at offset 132,
carries the address as four big-endian bytes at offsets 136-139, and carries
the payload zero-padded on the right to exactly 116 bytes from offset 140
(frame index 12) on. -/
theorem cmd0103h_frame_layout (addr : Nat) (data : List Nat)
    (hd : data.length ≤ 116) (ha : addr < 2 ^ 32) :
    (cmd0103h_frame addr data).get? 4 = some (data.length + 4) ∧
      (∃ b0 b1 b2 b3,
        (cmd0103h_frame addr data).get? 8 = some b0 ∧
        (cmd0103h_frame addr data).get? 9 = some b1 ∧
        (cmd0103h_frame addr data).get? 10 = some b2 ∧
        (cmd0103h_frame addr data).get? 11 = some b3 ∧
        b0 < 256 ∧ b1 < 256 ∧ b2 < 256 ∧ b3 < 256 ∧
        ((b0 * 256 + b1) * 256 + b2) * 256 + b3 = addr) ∧
      (cmd0103h_frame addr data).drop 12 =
        data ++ List.replicate (116 - data.length) 0 ∧
      ((cmd0103h_frame addr data).drop 12).length = 116 := by
  refine ⟨?_, ⟨(addr >>> 24) % 256, (addr >>> 16) % 256,
    (addr >>> 8) % 256, (addr >>> 0) % 256,
    rfl, rfl, rfl, rfl, Nat.mod_lt _ (by norm_num), Nat.mod_lt _ (by norm_num),
    Nat.mod_lt _ (by norm_num), Nat.mod_lt _ (by norm_num), ?_⟩, rfl, ?_⟩
  · show some ((data.length + 4) % 256) = some (data.length + 4)
    rw [Nat.mod_eq_of_lt (by omega)]
  · simp only [Nat.shiftRight_eq_div_pow]
    omega
  · show (data ++ List.replicate (116 - data.length) 0).length = 116
    simp
    omega

/-- Witness for C8, at a 3-byte payload and the address 0x01020304. -/
theorem cmd0103h_frame_layout_witness :
    (cmd0103h_frame 0x01020304 [0xaa, 0xbb, 0xcc]).get? 4 = some 7 ∧
      ((cmd0103h_frame 0x01020304 [0xaa, 0xbb, 0xcc]).drop 12).length = 116 :=
  ⟨(cmd0103h_frame_layout 0x01020304 [0xaa, 0xbb, 0xcc]
      (by decide) (by decide)).1,
   (cmd0103h_frame_layout 0x01020304 [0xaa, 0xbb, 0xcc]
      (by decide) (by decide)).2.2.2⟩

/-- C6 (counterexample): a 117-byte payload exceeds the inline capacity, yet
`cmd0103h` does not reject it — frame writes are still issued. -/
theorem cmd0103h_oversize_claim_false :
    116 < (List.replicate 117 1).length ∧
      cmd0103h_writes 0 (List.replicate 117 1) (fun _ => 0x01) ≠ [] := by
  constructor
  · decide
  · intro hcontra
    have h1 := cdb_retry_attempts_pos (fun _ => 0x01)
    rcases hk : (cdb_retry (fun _ => 0x01)).1 with _ | k
    · omega
    · rw [cmd0103h_writes, hk, List.replicate_succ, List.flatten_cons] at hcontra
      exact write_cdb_ne_nil _ (List.append_eq_nil.mp hcontra).1

/-- C6 (amended): `cmd0103h` performs no inline-capacity check: for every
payload longer than 116 bytes it still encodes the frame — the LPL length
byte is `(len(data) + 4) mod 256`, `ljust` leaves the oversize payload
unchanged — and issues its frame writes to the device. -/
theorem cmd0103h_oversize_encodes_and_writes (addr : Nat) (data : List Nat)
    (statuses : Nat → Nat) (h : 116 < data.length) :
    cmd0103h_writes addr data statuses ≠ [] ∧
      (cmd0103h_frame addr data).drop 12 = data ∧
      (cmd0103h_frame addr data).get? 4 = some ((data.length + 4) % 256) := by
  refine ⟨?_, ?_, rfl⟩
  · intro hcontra
    have h1 := cdb_retry_attempts_pos statuses
    rcases hk : (cdb_retry statuses).1 with _ | k
    · omega
    · rw [cmd0103h_writes, hk, List.replicate_succ, List.flatten_cons] at hcontra
      exact write_cdb_ne_nil _ (List.append_eq_nil.mp hcontra).1
  · show data ++ List.replicate (116 - data.length) 0 = data
    rw [Nat.sub_eq_zero_of_le (Nat.le_of_lt h)]
    simp

/-- Witness for C6 (amended), at the concrete 117-byte payload. -/
theorem cmd0103h_oversize_encodes_witness :
    (cmd0103h_frame 0 (List.replicate 117 1)).drop 12 =
      List.replicate 117 1 :=
  (cmd0103h_oversize_encodes_and_writes 0 (List.replicate 117 1)
    (fun _ => 0x02) (by decide)).2.1

/-! ## `cmd0104h`: firmware download with paged bulk (EPL) payload -/

/-- The staging writes issued by `cmd0104h(addr, data, autopaging_flag,
writelength)` in fixed-paging mode (`autopaging_flag` false): the 2048-byte
bulk unit is split into `2048 // PAGE_LENGTH` pages, plus one more when the
division leaves a remainder; for page offset `i` the target page is
`0xa0 + i`, and a full `PAGE_LENGTH` slice `data[128*i : 128*(i+1)]` is
written at `next_page * PAGE_LENGTH + INIT_OFFSET` whenever
`PAGE_LENGTH * (i+1)` fits in the unit, the tail of the data otherwise. -/
def cmd0104h_fixed_writes (data : List Nat) : List WriteEvent :=
  let epl_len := 2048
  let pages := epl_len / PAGE_LENGTH +
    (if epl_len % PAGE_LENGTH ≠ 0 then 1 else 0)
  (List.range pages).map fun pageoffset =>
    let next_page := 0xa0 + pageoffset
    if PAGE_LENGTH * (pageoffset + 1) ≤ epl_len then
      ⟨next_page * PAGE_LENGTH + INIT_OFFSET, PAGE_LENGTH,
        (data.drop (PAGE_LENGTH * pageoffset)).take PAGE_LENGTH⟩
    else
      let datachunk := data.drop (INIT_OFFSET * pageoffset)
      ⟨next_page * PAGE_LENGTH + INIT_OFFSET, datachunk.length, datachunk⟩

/-- C9: in fixed-paging mode the 2048-byte bulk unit yields exactly
`ceil(2048/128) = 16` staging writes, and the i-th write (in increasing
order of i, for 0 ≤ i < 16) carries the i-th 128-byte slice of the data to
offset `(0xa0 + i) * 128 + 128`. -/
theorem cmd0104h_fixed_paging (data : List Nat) :
    cmd0104h_fixed_writes data =
      (List.range 16).map fun i =>
        ⟨(0xa0 + i) * 128 + 128, 128, (data.drop (128 * i)).take 128⟩ := by
  simp only [cmd0104h_fixed_writes, PAGE_LENGTH, INIT_OFFSET]
  rw [show (2048 / 128 + if 2048 % 128 ≠ 0 then 1 else 0) = 16 by norm_num]
  apply List.map_congr_left
  intro i hi
  have hi16 : i < 16 := List.mem_range.mp hi
  rw [if_pos (by omega : 128 * (i + 1) ≤ 2048)]

/-- Witness for C9, evaluated on a concrete 200-byte data buffer: there are
16 writes and the second one targets page 0xa1 at offset 128 with the data
bytes past the first page, clipped by the slice. -/
theorem cmd0104h_fixed_paging_witness :
    (cmd0104h_fixed_writes (List.replicate 200 7)).length = 16 ∧
      (cmd0104h_fixed_writes (List.replicate 200 7)).get? 1 =
        some ⟨(0xa0 + 1) * 128 + 128, 128, List.replicate 72 7⟩ := by
  rw [cmd0104h_fixed_paging (List.replicate 200 7)]
  constructor
  · rw [List.length_map, List.length_range]
  · decide

end CmisCDB
